import Mathlib

set_option maxRecDepth 65536

/-!
Shallow embedding of the DNS server in `src/main.rs`.

Modelling conventions:
* `u8`/`u16`/`u32` values are `Nat`s; every place the Rust code performs an
  `as u8` / `as u16` cast is modelled by an explicit `% 256` / `% 65536`.
* `Result<T, String>` becomes the `ok`/`err` constructors of `Res`;
  a Rust panic (out-of-bounds slice/index, `unwrap` on `Err`) becomes
  `Res.panicked`; loops that the source runs without any bound are given a
  fuel parameter, and exhausting the fuel yields `Res.fuelOut` (so a source
  loop diverges on an input exactly when every fuel amount yields
  `Res.fuelOut` there).
* The 512-byte array `[u8; 512]` becomes a `List Nat` of length 512; the
  checked accesses `buf[i]` of Rust are `List.get?` (with `none` mapped to
  `Res.panicked`, as Rust would panic).
-/

/-- Outcome of running a piece of the Rust code: normal `Ok`, recoverable
`Err`, a Rust panic, or fuel exhaustion of a source-level unbounded loop. -/
inductive Res (α : Type) where
  | ok : α → Res α
  | err : String → Res α
  | panicked : Res α
  | fuelOut : Res α
deriving DecidableEq

def Res.bind {α β : Type} : Res α → (α → Res β) → Res β
  | .ok a, f => f a
  | .err e, _ => .err e
  | .panicked, _ => .panicked
  | .fuelOut, _ => .fuelOut

def Res.map {α β : Type} (f : α → β) : Res α → Res β
  | .ok a => .ok (f a)
  | .err e => .err e
  | .panicked => .panicked
  | .fuelOut => .fuelOut

instance : Monad Res where
  pure := Res.ok
  bind := Res.bind
  map := Res.map

/-- `BufHandler` from the source: a 512-byte buffer plus a position. -/
structure BufHandler where
  buf : List Nat
  pos : Nat
deriving DecidableEq

/-- `BufHandler::new`: zero-filled 512-byte buffer, position 0. -/
def BufHandler.new : BufHandler := ⟨List.replicate 512 0, 0⟩

/-- `BufHandler::read`: bounds-checked single-byte read. -/
def BufHandler.read (h : BufHandler) : Res (Nat × BufHandler) :=
  if 512 ≤ h.pos then .err "End of buffer"
  else .ok (h.buf.getD h.pos 0, ⟨h.buf, h.pos + 1⟩)

/-- `BufHandler::read_u16`. -/
def BufHandler.readU16 (h : BufHandler) : Res (Nat × BufHandler) := do
  let (hi, h) ← h.read
  let (lo, h) ← h.read
  return ((hi <<< 8) ||| lo, h)

/-- `BufHandler::read_u32`. -/
def BufHandler.readU32 (h : BufHandler) : Res (Nat × BufHandler) := do
  let (hi, h) ← h.readU16
  let (lo, h) ← h.readU16
  return ((hi <<< 16) ||| lo, h)

/-- `BufHandler::write`: bounds-checked single-byte write (the argument is a
`u8` in the source, hence the `% 256`). -/
def BufHandler.write (h : BufHandler) (data : Nat) : Res BufHandler :=
  if 512 ≤ h.pos then .err "End of buffer"
  else .ok ⟨h.buf.set h.pos (data % 256), h.pos + 1⟩

/-- `BufHandler::write_u16`: high byte then low byte. -/
def BufHandler.writeU16 (h : BufHandler) (data : Nat) : Res BufHandler := do
  let h ← h.write (data >>> 8)
  h.write data

/-- `BufHandler::write_u32`. -/
def BufHandler.writeU32 (h : BufHandler) (data : Nat) : Res BufHandler := do
  let h ← h.writeU16 (data >>> 16)
  h.writeU16 data

/-- `BufHandler::seek`. -/
def BufHandler.seek (h : BufHandler) (pos : Nat) : BufHandler := ⟨h.buf, pos⟩

/-- Byte-level model of `String::from_utf8_lossy(...).to_lowercase()` on one
byte: agrees with the source for ASCII label bytes. -/
def byteLowerChar (b : Nat) : Char :=
  Char.ofNat (if 65 ≤ b ∧ b ≤ 90 then b + 32 else b)

/-- A label's bytes rendered as the lowercased string the source appends. -/
def labelString (bs : List Nat) : String := String.mk (bs.map byteLowerChar)

/-- The bytes of a string, as the source's `str::bytes` yields them
(ASCII model: one byte per character). -/
def strBytes (s : String) : List Nat := s.data.map Char.toNat

/-- The loop body of `BufHandler::read_qname`, with explicit state
`(offset, jumped, pos, delim, out)` exactly as in the source, plus fuel for
the source's unbounded `loop`.  `buf.get? offset = none` means the Rust
index `self.buf[offset]` would panic; a label slice reaching past the
buffer end likewise panics. -/
def readQnameLoop (buf : List Nat) :
    Nat → Nat → Bool → Nat → String → String → Res (String × Nat)
  | 0, _, _, _, _, _ => .fuelOut
  | fuel + 1, offset, jumped, pos, delim, out =>
    match buf.get? offset with
    | none => .panicked
    | some len =>
      if len = 0 then
        .ok (out, if jumped then pos else offset + 1)
      else if len &&& 0xC0 = 0xC0 then
        match buf.get? (offset + 1) with
        | none => .panicked
        | some b2 =>
          let pointer := ((len ^^^ 0xC0) <<< 8) ||| b2
          readQnameLoop buf fuel pointer true
            (if jumped then pos else offset + 2) delim out
      else
        if offset + 1 + len ≤ buf.length then
          readQnameLoop buf fuel (offset + 1 + len) jumped pos "."
            (out ++ delim ++ labelString ((buf.drop (offset + 1)).take len))
        else .panicked

/-- `BufHandler::read_qname`: decompress a DNS name starting at the current
position, appending to `out`. -/
def BufHandler.readQname (fuel : Nat) (h : BufHandler) (out : String) :
    Res (String × BufHandler) :=
  match readQnameLoop h.buf fuel h.pos false h.pos "" out with
  | .ok (o, p) => .ok (o, ⟨h.buf, p⟩)
  | .err e => .err e
  | .panicked => .panicked
  | .fuelOut => .fuelOut

/-- Split a character list at every `.`, as `str::split(".")` does (an empty
string yields one empty piece, like the Rust iterator). -/
def splitDot : List Char → List (List Char)
  | [] => [[]]
  | c :: rest =>
    if c = '.' then [] :: splitDot rest
    else
      match splitDot rest with
      | [] => [[c]]
      | l :: ls => (c :: l) :: ls

/-- One label of `BufHandler::write_qname`: length byte then the bytes. -/
def writeLabel (h : BufHandler) (label : List Char) : Res BufHandler := do
  let h ← h.write (label.length % 256)
  (label.map Char.toNat).foldlM (fun h b => h.write b) h

/-- `BufHandler::write_qname`: split on `.`, write each label, then a zero. -/
def BufHandler.writeQname (h : BufHandler) (qname : String) : Res BufHandler := do
  let h ← (splitDot qname.data).foldlM writeLabel h
  h.write 0

/-- `OpCode` from the source. -/
inductive OpCode where
  | QUERY | IQUERY | STATUS
deriving DecidableEq

/-- `OpCode::from_num` (lenient: unknown values fall back to `QUERY`). -/
def OpCode.fromNum (num : Nat) : OpCode :=
  match num with
  | 1 => .IQUERY
  | 2 => .STATUS
  | _ => .QUERY

/-- The discriminant used by `self.opcode as u8` in `DnsHeader::write`. -/
def OpCode.toNum : OpCode → Nat
  | .QUERY => 0
  | .IQUERY => 1
  | .STATUS => 2

/-- `ResponseCode` from the source. -/
inductive ResponseCode where
  | NOERR | FORMERR | SERVFAIL | NAMERR | NOTIMP | REFUSED
deriving DecidableEq

/-- `ResponseCode::from_num` (lenient fallback to `NOERR`). -/
def ResponseCode.fromNum (num : Nat) : ResponseCode :=
  match num with
  | 1 => .FORMERR
  | 2 => .SERVFAIL
  | 3 => .NAMERR
  | 4 => .NOTIMP
  | 5 => .REFUSED
  | _ => .NOERR

/-- The discriminant used by `self.response_code as u8` in `DnsHeader::write`. -/
def ResponseCode.toNum : ResponseCode → Nat
  | .NOERR => 0
  | .FORMERR => 1
  | .SERVFAIL => 2
  | .NAMERR => 3
  | .NOTIMP => 4
  | .REFUSED => 5

/-- `DnsHeader` from the source (field widths as in the comments there:
`z` is documented as a 3-bit field). -/
structure DnsHeader where
  id : Nat
  query : Bool
  opcode : OpCode
  authoritative_answer : Bool
  truncation : Bool
  recursion_desired : Bool
  recursion_available : Bool
  z : Nat
  response_code : ResponseCode
  questions : Nat
  answers : Nat
  nameservers : Nat
  additionals : Nat
deriving DecidableEq

/-- `DnsHeader::new`: all-zero header. -/
def DnsHeader.new : DnsHeader :=
  ⟨0, false, .QUERY, false, false, false, false, 0, .NOERR, 0, 0, 0, 0⟩

def boolBit (b : Bool) : Nat := if b then 1 else 0

/-- `DnsHeader::read`: unpack the 12-byte header.  Note the source extracts
`z` with the four-bit mask `(b >> 4) & 0xF`, which includes the RA bit. -/
def DnsHeader.read (h : BufHandler) : Res (DnsHeader × BufHandler) := do
  let (id, h) ← h.readU16
  let (flags, h) ← h.readU16
  let a := flags >>> 8
  let b := flags &&& 0xFF
  let (questions, h) ← h.readU16
  let (answers, h) ← h.readU16
  let (nameservers, h) ← h.readU16
  let (additionals, h) ← h.readU16
  return (⟨id,
    (a >>> 7) &&& 0x1 = 1,
    OpCode.fromNum ((a >>> 3) &&& 0xF),
    (a >>> 2) &&& 0x1 = 1,
    (a >>> 1) &&& 0x1 = 1,
    a &&& 0x1 = 1,
    (b >>> 7) &&& 0x1 = 1,
    (b >>> 4) &&& 0xF,
    ResponseCode.fromNum (b &&& 0xF),
    questions, answers, nameservers, additionals⟩, h)

/-- `DnsHeader::write`: pack the 12-byte header.  The source computes both
flag bytes in `u8` arithmetic; `BufHandler.write` applies the `% 256`. -/
def DnsHeader.write (d : DnsHeader) (h : BufHandler) : Res BufHandler := do
  let h ← h.writeU16 d.id
  let h ← h.write ((boolBit d.query <<< 7) ||| (d.opcode.toNum <<< 3) |||
    (boolBit d.authoritative_answer <<< 2) ||| (boolBit d.truncation <<< 1) |||
    boolBit d.recursion_desired)
  let h ← h.write ((boolBit d.recursion_available <<< 7) ||| ((d.z <<< 4) % 256) |||
    d.response_code.toNum)
  let h ← h.writeU16 d.questions
  let h ← h.writeU16 d.answers
  let h ← h.writeU16 d.nameservers
  h.writeU16 d.additionals

/-- `QueryType` from the source. -/
inductive QueryType where
  | A | NS | CNAME | MX | AAAA | UNKNOWN
deriving DecidableEq

/-- `QueryType::from_num`. -/
def QueryType.fromNum (num : Nat) : QueryType :=
  match num with
  | 1 => .A
  | 2 => .NS
  | 5 => .CNAME
  | 15 => .MX
  | 28 => .AAAA
  | _ => .UNKNOWN

/-- `QueryType::to_num` (note: `UNKNOWN` maps to 0). -/
def QueryType.toNum : QueryType → Nat
  | .A => 1
  | .NS => 2
  | .CNAME => 5
  | .MX => 15
  | .AAAA => 28
  | .UNKNOWN => 0

/-- `std::net::Ipv4Addr` as its four octets. -/
structure Ipv4Addr where
  o0 : Nat
  o1 : Nat
  o2 : Nat
  o3 : Nat
deriving DecidableEq

/-- `Ipv4Addr::octets`. -/
def Ipv4Addr.octets (a : Ipv4Addr) : List Nat := [a.o0, a.o1, a.o2, a.o3]

/-- `std::net::Ipv6Addr` as its eight 16-bit segments. -/
structure Ipv6Addr where
  s0 : Nat
  s1 : Nat
  s2 : Nat
  s3 : Nat
  s4 : Nat
  s5 : Nat
  s6 : Nat
  s7 : Nat
deriving DecidableEq

/-- `Ipv6Addr::segments`. -/
def Ipv6Addr.segments (a : Ipv6Addr) : List Nat :=
  [a.s0, a.s1, a.s2, a.s3, a.s4, a.s5, a.s6, a.s7]

/-- `DnsQuestion` from the source. -/
structure DnsQuestion where
  name : String
  qtype : QueryType
deriving DecidableEq

/-- `DnsQuestion::read`: name, type, discarded class. -/
def DnsQuestion.read (fuel : Nat) (h : BufHandler) : Res (DnsQuestion × BufHandler) := do
  let (name, h) ← h.readQname fuel ""
  let (t, h) ← h.readU16
  let (_qclass, h) ← h.readU16
  return (⟨name, QueryType.fromNum t⟩, h)

/-- `DnsQuestion::write`: name, type, class 1. -/
def DnsQuestion.write (q : DnsQuestion) (h : BufHandler) : Res BufHandler := do
  let h ← h.writeQname q.name
  let h ← h.writeU16 q.qtype.toNum
  h.writeU16 1

/-- `DnsRecord` from the source.  Field order follows the Rust variants. -/
inductive DnsRecord where
  | UNKNOWN (domain : String) (qtype : Nat)
  | A (domain : String) (addr : Ipv4Addr) (ttl : Nat)
  | NS (domain : String) (ttl : Nat) (host : String)
  | CNAME (domain : String) (ttl : Nat) (host : String)
  | MX (domain : String) (ttl : Nat) (priority : Nat) (host : String)
  | AAAA (domain : String) (ttl : Nat) (addr : Ipv6Addr)
deriving DecidableEq

/-- `DnsRecord::read`: name, type, class, ttl, declared data length, then the
type-specific tail.  As in the source, `_len` is read but an `UNKNOWN`
record's data is never skipped, and the stored `qtype` is
`QueryType::to_num` of the parsed variant (0 for `UNKNOWN`). -/
def DnsRecord.read (fuel : Nat) (h : BufHandler) : Res (DnsRecord × BufHandler) := do
  let (qname, h) ← h.readQname fuel ""
  let (tnum, h) ← h.readU16
  let qtype := QueryType.fromNum tnum
  let (_qclass, h) ← h.readU16
  let (ttl, h) ← h.readU32
  let (_len, h) ← h.readU16
  match qtype with
  | .A => do
    let (a, h) ← h.read
    let (b, h) ← h.read
    let (c, h) ← h.read
    let (d, h) ← h.read
    return (.A qname ⟨a, b, c, d⟩ ttl, h)
  | .NS => do
    let (ns, h) ← h.readQname fuel ""
    return (.NS qname ttl ns, h)
  | .CNAME => do
    let (cname, h) ← h.readQname fuel ""
    return (.CNAME qname ttl cname, h)
  | .MX => do
    let (priority, h) ← h.readU16
    let (mx, h) ← h.readQname fuel ""
    return (.MX qname ttl priority mx, h)
  | .AAAA => do
    let (s0, h) ← h.readU16
    let (s1, h) ← h.readU16
    let (s2, h) ← h.readU16
    let (s3, h) ← h.readU16
    let (s4, h) ← h.readU16
    let (s5, h) ← h.readU16
    let (s6, h) ← h.readU16
    let (s7, h) ← h.readU16
    return (.AAAA qname ttl ⟨s0, s1, s2, s3, s4, s5, s6, s7⟩, h)
  | _ => return (.UNKNOWN qname qtype.toNum, h)

/-- `DnsRecord::write`.  The `UNKNOWN` arm of the source is `_ => {}`:
it writes nothing. -/
def DnsRecord.write (r : DnsRecord) (h : BufHandler) : Res BufHandler :=
  match r with
  | .A domain addr ttl => do
    let h ← h.writeQname domain
    let h ← h.writeU16 QueryType.A.toNum
    let h ← h.writeU16 1
    let h ← h.writeU32 ttl
    let h ← h.writeU16 4
    addr.octets.foldlM (fun h b => h.write b) h
  | .AAAA domain ttl addr => do
    let h ← h.writeQname domain
    let h ← h.writeU16 QueryType.AAAA.toNum
    let h ← h.writeU16 1
    let h ← h.writeU32 ttl
    let h ← h.writeU16 16
    addr.segments.foldlM (fun h s => h.writeU16 s) h
  | .NS domain ttl host => do
    let h ← h.writeQname domain
    let h ← h.writeU16 QueryType.NS.toNum
    let h ← h.writeU16 1
    let h ← h.writeU32 ttl
    let h ← h.writeU16 ((strBytes host).length + 2)
    h.writeQname host
  | .CNAME domain ttl host => do
    let h ← h.writeQname domain
    let h ← h.writeU16 QueryType.CNAME.toNum
    let h ← h.writeU16 1
    let h ← h.writeU32 ttl
    let h ← h.writeU16 ((strBytes host).length + 2)
    h.writeQname host
  | .MX domain ttl priority host => do
    let h ← h.writeQname domain
    let h ← h.writeU16 QueryType.MX.toNum
    let h ← h.writeU16 1
    let h ← h.writeU32 ttl
    let h ← h.writeU16 ((strBytes host).length + 4)
    let h ← h.writeU16 priority
    h.writeQname host
  | .UNKNOWN _ _ => .ok h

/-- `DnsPacket` from the source. -/
structure DnsPacket where
  header : DnsHeader
  questions : List DnsQuestion
  answers : List DnsRecord
  nameservers : List DnsRecord
  additionals : List DnsRecord
deriving DecidableEq

/-- `DnsPacket::new`. -/
def DnsPacket.new : DnsPacket := ⟨DnsHeader.new, [], [], [], []⟩

/-- The `for _ in 0..n` question-reading loop of `DnsPacket::read`. -/
def readQuestions (fuel : Nat) : Nat → BufHandler → Res (List DnsQuestion × BufHandler)
  | 0, h => .ok ([], h)
  | n + 1, h => do
    let (q, h) ← DnsQuestion.read fuel h
    let (qs, h) ← readQuestions fuel n h
    return (q :: qs, h)

/-- The `for _ in 0..n` record-reading loops of `DnsPacket::read`. -/
def readRecords (fuel : Nat) : Nat → BufHandler → Res (List DnsRecord × BufHandler)
  | 0, h => .ok ([], h)
  | n + 1, h => do
    let (r, h) ← DnsRecord.read fuel h
    let (rs, h) ← readRecords fuel n h
    return (r :: rs, h)

/-- `DnsPacket::read`: header, then the four sections, counts taken from the
header just read. -/
def DnsPacket.read (fuel : Nat) (h : BufHandler) : Res (DnsPacket × BufHandler) := do
  let (header, h) ← DnsHeader.read h
  let (questions, h) ← readQuestions fuel header.questions h
  let (answers, h) ← readRecords fuel header.answers h
  let (nameservers, h) ← readRecords fuel header.nameservers h
  let (additionals, h) ← readRecords fuel header.additionals h
  return (⟨header, questions, answers, nameservers, additionals⟩, h)

/-- The count-fixing assignments at the top of `DnsPacket::write`
(`self.header.questions = self.questions.len() as u16;` etc.). -/
def DnsPacket.setCounts (p : DnsPacket) : DnsPacket :=
  { p with header := { p.header with
      questions := p.questions.length % 65536,
      answers := p.answers.length % 65536,
      nameservers := p.nameservers.length % 65536,
      additionals := p.additionals.length % 65536 } }

/-- The question-writing loop of `DnsPacket::write`. -/
def writeQuestions : List DnsQuestion → BufHandler → Res BufHandler
  | [], h => .ok h
  | q :: qs, h => do
    let h ← q.write h
    writeQuestions qs h

/-- The record-writing loops of `DnsPacket::write`. -/
def writeRecords : List DnsRecord → BufHandler → Res BufHandler
  | [], h => .ok h
  | r :: rs, h => do
    let h ← r.write h
    writeRecords rs h

/-- `DnsPacket::write`: fix the header counts from the section lengths, then
write the header and the four sections. -/
def DnsPacket.write (p : DnsPacket) (h : BufHandler) : Res BufHandler := do
  let p := p.setCounts
  let h ← p.header.write h
  let h ← writeQuestions p.questions h
  let h ← writeRecords p.answers h
  let h ← writeRecords p.nameservers h
  writeRecords p.additionals h

/-- Encode a message into a fresh buffer, then decode it from position 0, as
the round-trip property composes `DnsPacket::write` with `DnsPacket::read`
on a fresh cursor. -/
def roundtrip (fuel : Nat) (p : DnsPacket) : Res DnsPacket :=
  match p.write BufHandler.new with
  | .ok s => (DnsPacket.read fuel (s.seek 0)).map Prod.fst
  | .err e => .err e
  | .panicked => .panicked
  | .fuelOut => .fuelOut

/-- Pack then unpack just the header, on a fresh buffer. -/
def headerRoundtrip (d : DnsHeader) : Res DnsHeader :=
  match d.write BufHandler.new with
  | .ok s => (DnsHeader.read (s.seek 0)).map Prod.fst
  | .err e => .err e
  | .panicked => .panicked
  | .fuelOut => .fuelOut

/-- The hardcoded root hint `202.12.27.33` in `main`. -/
def rootAddr : Ipv4Addr := ⟨202, 12, 27, 33⟩

/-- The glue-selection loop in `main`:
`for additional in packet.additionals { if let DnsRecord::A { addr, .. } = additional { current_address = addr; } }`.
Every A record overwrites the current address (the last one wins); the owner
name and the authority section are never consulted, and when no A record is
present the address is left unchanged. -/
def pickGlue (adds : List DnsRecord) (cur : Ipv4Addr) : Ipv4Addr :=
  adds.foldl (fun c r => match r with | .A _ addr _ => addr | _ => c) cur

/-- The referral-following `loop` in `main`, parameterised by an oracle for
`lookup` (the upstream exchange: query name, type, nameserver address ↦
the decoded upstream response, or the `Err` that `lookup` can return).
`main` calls `lookup(...).unwrap()`, so an `Err` from the oracle panics.
The source loop has no hop bound; fuel counts its iterations. -/
def resolveLoop (oracle : String → QueryType → Ipv4Addr → Except String DnsPacket) :
    Nat → String → QueryType → Ipv4Addr → Res DnsPacket
  | 0, _, _, _ => .fuelOut
  | fuel + 1, qname, qtype, addr =>
    match oracle qname qtype addr with
    | .error _ => .panicked
    | .ok p =>
      if p.answers.isEmpty then
        resolveLoop oracle fuel qname qtype (pickGlue p.additionals addr)
      else .ok p

/-- `Vec::pop` on the model's lists: remove and return the LAST element. -/
def vecPop {α : Type} : List α → Option α × List α
  | [] => (none, [])
  | [a] => (some a, [])
  | a :: b :: rest =>
    let (x, r) := vecPop (b :: rest)
    (x, a :: r)

/-- The question the server resolves:
`request_packet.questions.pop()` in `main`. -/
def serverSelectedQuestion (req : DnsPacket) : Option DnsQuestion :=
  (vecPop req.questions).fst

/-- The `response_packet` that `main` builds before resolving: copy the
request's id, set RD/RA/AA; every other header field keeps the
`DnsHeader::new` default (in particular the response code stays NOERR). -/
def respTemplate (req : DnsPacket) : DnsPacket :=
  { DnsPacket.new with
    header := { DnsPacket.new.header with
                id := req.header.id,
                recursion_desired := true,
                recursion_available := true,
                authoritative_answer := true } }

/-- One iteration of the server loop in `main`, from a decoded request to
the response packet handed to `DnsPacket::write`: build the response header
(copy the id, set RD/RA/AA), pop a question, run the referral loop, copy
its answers.  Resolution failures surface as `Res.panicked` because `main`
unwraps `lookup`'s result; the response code is never assigned. -/
def handleRequest (oracle : String → QueryType → Ipv4Addr → Except String DnsPacket)
    (fuel : Nat) (req : DnsPacket) : Res DnsPacket :=
  match serverSelectedQuestion req with
  | none => .ok (respTemplate req)
  | some q =>
    match resolveLoop oracle fuel q.name q.qtype rootAddr with
    | .ok p => .ok { respTemplate req with answers := p.answers }
    | .err e => .err e
    | .panicked => .panicked
    | .fuelOut => .fuelOut

/-! Concrete inputs used by the theorems below. -/

/-- A 512-byte buffer whose first two bytes are a compression pointer to
offset 0, i.e. a self-referential pointer chain. -/
def cycBuf : List Nat := 192 :: 0 :: List.replicate 510 0

/-- A 512-byte buffer whose first two bytes are a compression pointer to
offset 16383, far beyond the buffer's 512-byte capacity. -/
def oobBuf : List Nat := 255 :: 255 :: List.replicate 510 0

/-- A 512-byte buffer holding two resource records: at offset 0 a record of
unrecognized type 16 with declared data length 4 (data `9 9 9 9`, ending at
offset 17), and at offset 17 an A record `y ↦ 1.2.3.4`, ttl 60 (ending at
offset 34). -/
def skipBuf : List Nat :=
  [1, 120, 0,  0, 16,  0, 1,  0, 0, 0, 0,  0, 4,  9, 9, 9, 9,
   1, 121, 0,  0, 1,   0, 1,  0, 0, 0, 60,  0, 4,  1, 2, 3, 4] ++
  List.replicate 478 0

/-- A header with the recursion-available flag set and the reserved `z`
field zero, as any upstream response carries it. -/
def hdRA : DnsHeader :=
  { DnsHeader.new with
    id := 7,
    recursion_desired := true,
    recursion_available := true,
    questions := 1 }

/-- A well-formed one-question message (21 encoded bytes) whose header has
recursion-available set; its section counts match the section lengths. -/
def pRA : DnsPacket := ⟨hdRA, [⟨"abc", QueryType.A⟩], [], [], []⟩

/-- `pRA` with the reserved field replaced by 8: what decoding the encoding
of `pRA` actually produces. -/
def pRAz8 : DnsPacket := ⟨{ hdRA with z := 8 }, [⟨"abc", QueryType.A⟩], [], [], []⟩

/-- An upstream oracle producing a two-node referral cycle: every response
has an empty answer section and a glue A record pointing at the other of
two addresses. -/
def oracleCyc (_ : String) (_ : QueryType) (addr : Ipv4Addr) : Except String DnsPacket :=
  let next : Ipv4Addr := if addr = ⟨1, 1, 1, 1⟩ then ⟨2, 2, 2, 2⟩ else ⟨1, 1, 1, 1⟩
  .ok { DnsPacket.new with
    nameservers := [.NS "example.com" 3600 "ns.example.com"],
    additionals := [.A "ns.example.com" next 3600] }

/-- An upstream oracle producing a glueless referral: empty answer section,
a nameserver in the authority section, and no additional records at all. -/
def oracleNoGlue (_ : String) (_ : QueryType) (_ : Ipv4Addr) : Except String DnsPacket :=
  .ok { DnsPacket.new with
    nameservers := [.NS "example.com" 3600 "ns1.example.com"] }

/-- An upstream oracle that answers every query at once, echoing the queried
name into the answer's owner name. -/
def oracleEcho (qname : String) (_ : QueryType) (_ : Ipv4Addr) : Except String DnsPacket :=
  .ok { DnsPacket.new with answers := [.A qname ⟨1, 2, 3, 4⟩ 60] }

/-- A decoded client request carrying a single A question. -/
def reqOneQ : DnsPacket :=
  { DnsPacket.new with
    header := { DnsHeader.new with id := 0x1A2B, query := true, questions := 1 },
    questions := [⟨"example.com", QueryType.A⟩] }

/-- A decoded client request carrying two questions, `first.example` then
`second.example`. -/
def reqTwoQ : DnsPacket :=
  { DnsPacket.new with
    header := { DnsHeader.new with id := 0x1A2B, query := true, questions := 2 },
    questions := [⟨"first.example", QueryType.A⟩, ⟨"second.example", QueryType.A⟩] }

/-- The response `handleRequest` produces for `reqOneQ` under `oracleEcho`. -/
def respOneQ : DnsPacket :=
  { DnsPacket.new with
    header := { DnsHeader.new with
                id := 0x1A2B,
                recursion_desired := true,
                recursion_available := true,
                authoritative_answer := true },
    answers := [.A "example.com" ⟨1, 2, 3, 4⟩ 60] }

/-- A message whose only answer record is of the `UNKNOWN` variant. -/
def pUnknown : DnsPacket :=
  { DnsPacket.new with answers := [.UNKNOWN "z" 16] }

/-! Helper lemmas. -/

/-- After the first jump of the self-referential pointer of `cycBuf`, each
loop iteration returns to the identical state one fuel unit poorer. -/
theorem readQnameLoop_cycBuf (pos : Nat) (delim out : String) :
    ∀ fuel, readQnameLoop cycBuf fuel 0 true pos delim out = .fuelOut := by
  intro fuel
  induction fuel with
  | zero => rfl
  | succ n ih =>
    have hstep : readQnameLoop cycBuf (n + 1) 0 true pos delim out
        = readQnameLoop cycBuf n 0 true pos delim out := rfl
    rw [hstep, ih]

/-- `Vec::pop` returns the last element of the vector. -/
theorem vecPop_fst {α : Type} : ∀ l : List α, (vecPop l).fst = l.getLast? := by
  intro l
  induction l with
  | nil => rfl
  | cons a t ih =>
    cases t with
    | nil => rfl
    | cons b r =>
      show (vecPop (a :: b :: r)).fst = (a :: b :: r).getLast?
      rw [List.getLast?_cons_cons, ← ih]
      simp [vecPop]

/-! Claim theorems. -/

/-- C1: the encode/decode round trip does NOT return every well-formed
message unchanged.  For the well-formed 21-byte message `pRA`, whose only
unusual feature is the perfectly legal `recursion_available = true`,
decoding the encoding yields `pRAz8`, which differs from `pRA` in the
reserved field (`z` comes back as 8 instead of 0, because
`DnsHeader::read` extracts `z` with a four-bit mask that includes the RA
bit). -/
theorem packet_roundtrip_corrupts_reserved_field :
    roundtrip 64 pRA = Res.ok pRAz8 ∧ pRA.header.z = 0 ∧ pRAz8.header.z = 8 ∧
    pRAz8 ≠ pRA := by
  refine ⟨by decide, rfl, rfl, by decide⟩

/-- C2: `read_qname` has no bound on compression-pointer follows: on the
buffer `cycBuf`, whose first two bytes are a pointer to offset 0, the
decoding loop never terminates (it returns fuel exhaustion for EVERY fuel
amount, instead of the recoverable error the claim requires). -/
theorem read_qname_diverges_on_cyclic_pointer :
    ∀ fuel, BufHandler.readQname fuel ⟨cycBuf, 0⟩ "" = Res.fuelOut := by
  intro fuel
  cases fuel with
  | zero => rfl
  | succ n =>
    have h1 : readQnameLoop cycBuf (n + 1) 0 false 0 "" ""
        = readQnameLoop cycBuf n 0 true 2 "" "" := rfl
    simp only [BufHandler.readQname, h1, readQnameLoop_cycBuf]

/-- C3: `DnsRecord::read` does not skip the declared data length of an
unrecognized record type.  In `skipBuf`, the unknown-type record's data
ends at offset 17, yet after reading it the cursor stands at offset 13;
decoding the following record from there does not produce the A record
`y ↦ 1.2.3.4` that a correctly positioned cursor (offset 17) produces. -/
theorem unknown_record_data_not_skipped :
    DnsRecord.read 64 ⟨skipBuf, 0⟩ = Res.ok (DnsRecord.UNKNOWN "x" 0, ⟨skipBuf, 13⟩) ∧
    DnsRecord.read 64 ⟨skipBuf, 17⟩ = Res.ok (DnsRecord.A "y" ⟨1, 2, 3, 4⟩ 60, ⟨skipBuf, 34⟩) ∧
    (DnsRecord.read 64 ⟨skipBuf, 13⟩).map Prod.fst ≠
      Res.ok (DnsRecord.A "y" ⟨1, 2, 3, 4⟩ 60) := by
  refine ⟨by decide, by decide, by decide⟩

/-- C4: the cursor primitives `read` and `write` do fail with the
recoverable `End of buffer` error on any access at or past position 512,
but `read_qname` follows a compression pointer to offset 16383 with an
unchecked buffer index, which panics (`Res.panicked`) instead of returning
a recoverable error. -/
theorem qname_pointer_overrun_panics :
    (∀ buf pos, 512 ≤ pos → BufHandler.read ⟨buf, pos⟩ = Res.err "End of buffer") ∧
    (∀ buf pos data, 512 ≤ pos →
      BufHandler.write ⟨buf, pos⟩ data = Res.err "End of buffer") ∧
    (∀ fuel, BufHandler.readQname (fuel + 2) ⟨oobBuf, 0⟩ "" = Res.panicked) := by
  refine ⟨?_, ?_, ?_⟩
  · intro buf pos hp
    simp [BufHandler.read, hp]
  · intro buf pos data hp
    simp [BufHandler.write, hp]
  · intro fuel
    have h1 : readQnameLoop oobBuf (fuel + 2) 0 false 0 "" "" = Res.panicked := rfl
    simp only [BufHandler.readQname, h1]

/-- Witness for C4's theorem: the hypotheses hold at position 512 of a
concrete zero buffer. -/
theorem qname_pointer_overrun_panics_witness :
    BufHandler.read ⟨List.replicate 512 0, 512⟩ = Res.err "End of buffer" ∧
    BufHandler.write ⟨List.replicate 512 0, 512⟩ 7 = Res.err "End of buffer" :=
  ⟨qname_pointer_overrun_panics.1 (List.replicate 512 0) 512 (by decide),
   qname_pointer_overrun_panics.2.1 (List.replicate 512 0) 512 7 (by decide)⟩

/-- C5: packing then unpacking the header does NOT reconstruct every field.
With recursion-available true and the three-bit `z` equal to 0, the decoded
`z` is 8: `DnsHeader::read` extracts `z` as `(b >> 4) & 0xF`, a four-bit
mask that captures the RA bit, instead of the three-bit mask the
`RA(1) Z(3) RCODE(4)` layout prescribes. -/
theorem header_roundtrip_z_includes_ra_bit :
    headerRoundtrip hdRA = Res.ok { hdRA with z := 8 } ∧ hdRA.z = 0 ∧
    hdRA.recursion_available = true ∧ headerRoundtrip hdRA ≠ Res.ok hdRA := by
  refine ⟨by decide, rfl, rfl, by decide⟩

/-- C6: the referral-following loop in `main` issues an unbounded number of
upstream queries: under the two-node referral cycle `oracleCyc` it never
terminates (fuel exhaustion for every fuel amount, from every starting
address), rather than failing with a `ResolutionDepthExceeded` condition —
no hop limit exists in the code. -/
theorem resolver_unbounded_on_referral_cycle :
    ∀ fuel qname qtype addr,
      resolveLoop oracleCyc fuel qname qtype addr = Res.fuelOut := by
  intro fuel
  induction fuel with
  | zero => intro qname qtype addr; rfl
  | succ n ih =>
    intro qname qtype addr
    exact ih qname qtype (if addr = ⟨1, 1, 1, 1⟩ then ⟨2, 2, 2, 2⟩ else ⟨1, 1, 1, 1⟩)

/-- C7: when a referral carries no usable glue A record, the resolver does
not fail with a `NoGlueRecord` error: the glue scan leaves the current
address unchanged (second conjunct), so under `oracleNoGlue` the loop
re-queries the same address forever (first conjunct).  The scan also never
consults the authority section's owner names: an A record with an owner
name unrelated to any authority nameserver is still selected (third
conjunct). -/
theorem resolver_requeries_without_glue :
    (∀ fuel qname qtype addr,
      resolveLoop oracleNoGlue fuel qname qtype addr = Res.fuelOut) ∧
    (∀ cur, pickGlue [] cur = cur) ∧
    pickGlue [.A "unrelated.example" ⟨9, 9, 9, 9⟩ 0] rootAddr = ⟨9, 9, 9, 9⟩ := by
  refine ⟨?_, fun cur => rfl, rfl⟩
  intro fuel
  induction fuel with
  | zero => intro qname qtype addr; rfl
  | succ n ih => intro qname qtype addr; exact ih qname qtype addr

/-- C8: a failed upstream lookup does not produce a SERVFAIL response: the
server panics on it (`lookup(...).unwrap()`), killing the process (first
conjunct); moreover no successful path can carry SERVFAIL, because the
response code of the reply is never assigned and stays NOERR (second
conjunct). -/
theorem lookup_failure_panics_no_servfail :
    (∀ e fuel, handleRequest (fun _ _ _ => Except.error e) (fuel + 1) reqOneQ
      = Res.panicked) ∧
    (∀ oracle fuel req resp, handleRequest oracle fuel req = Res.ok resp →
      resp.header.response_code = ResponseCode.NOERR) := by
  constructor
  · intro e fuel; rfl
  · intro oracle fuel req resp h
    unfold handleRequest at h
    split at h
    · cases h; rfl
    · split at h
      · cases h; rfl
      · cases h
      · cases h
      · cases h

/-- Witness for C8's theorem: under an oracle that answers at once, the
server's reply to `reqOneQ` is `respOneQ`, whose response code is NOERR. -/
theorem lookup_failure_panics_no_servfail_witness :
    handleRequest oracleEcho 1 reqOneQ = Res.ok respOneQ ∧
    respOneQ.header.response_code = ResponseCode.NOERR :=
  ⟨by decide,
   lookup_failure_panics_no_servfail.2 oracleEcho 1 reqOneQ respOneQ (by decide)⟩

/-- C9 counterexample: the server does NOT resolve the first question.  For
the two-question request `reqTwoQ` under the echoing oracle, the reply's
answer carries the owner name of the SECOND question, not of the first. -/
theorem server_answers_second_question_of_two :
    handleRequest oracleEcho 1 reqTwoQ
      = Res.ok { respTemplate reqTwoQ with
                 answers := [.A "second.example" ⟨1, 2, 3, 4⟩ 60] } ∧
    reqTwoQ.questions.head? = some ⟨"first.example", QueryType.A⟩ ∧
    (DnsRecord.A "second.example" ⟨1, 2, 3, 4⟩ 60)
      ≠ DnsRecord.A "first.example" ⟨1, 2, 3, 4⟩ 60 := by
  refine ⟨by decide, rfl, by decide⟩

/-- C9 (amended): the server resolves exactly the LAST question of the
request's question sequence — `Vec::pop` removes the final element — and
ignores the others. -/
theorem server_resolves_last_question :
    ∀ oracle fuel (req : DnsPacket) q, req.questions.getLast? = some q →
      handleRequest oracle fuel req =
        match resolveLoop oracle fuel q.name q.qtype rootAddr with
        | .ok p => .ok { respTemplate req with answers := p.answers }
        | .err e => .err e
        | .panicked => .panicked
        | .fuelOut => .fuelOut := by
  intro oracle fuel req q hq
  unfold handleRequest serverSelectedQuestion
  rw [vecPop_fst, hq]

/-- Witness for C9's amended theorem: applied to `reqTwoQ`, whose last
question is `second.example`. -/
theorem server_resolves_last_question_witness :
    handleRequest oracleEcho 1 reqTwoQ =
      match resolveLoop oracleEcho 1 "second.example" QueryType.A rootAddr with
      | .ok p => .ok { respTemplate reqTwoQ with answers := p.answers }
      | .err e => .err e
      | .panicked => .panicked
      | .fuelOut => .fuelOut :=
  server_resolves_last_question oracleEcho 1 reqTwoQ
    ⟨"second.example", QueryType.A⟩ (by decide)

/-- C10: `DnsRecord::write` on an `UNKNOWN` record writes no bytes and
leaves the handler untouched (first conjunct), appending an `UNKNOWN`
record to a section changes nothing in the serialized stream (second
conjunct), yet `DnsPacket::write` counts it in the header's section count
(third conjunct); concretely, encoding a message whose single answer is an
`UNKNOWN` record yields 12 bytes (the bare header) whose answer-count field
reads 1 (fourth conjunct). -/
theorem unknown_record_zero_bytes_but_counted :
    (∀ domain qtype h, DnsRecord.write (.UNKNOWN domain qtype) h = Res.ok h) ∧
    (∀ rs domain qtype h,
      writeRecords (rs ++ [.UNKNOWN domain qtype]) h = writeRecords rs h) ∧
    (∀ p : DnsPacket, p.answers.length < 65536 →
      (DnsPacket.setCounts p).header.answers = p.answers.length) ∧
    (DnsPacket.write pUnknown BufHandler.new).map
      (fun h => (h.pos, h.buf.getD 6 0, h.buf.getD 7 0)) = Res.ok (12, 0, 1) := by
  refine ⟨fun domain qtype h => rfl, ?_, ?_, by decide⟩
  · intro rs domain qtype
    induction rs with
    | nil => intro h; rfl
    | cons r rs ih =>
      intro h
      have h1 : writeRecords ((r :: rs) ++ [DnsRecord.UNKNOWN domain qtype]) h
          = Res.bind (r.write h)
              (fun x => writeRecords (rs ++ [DnsRecord.UNKNOWN domain qtype]) x) := rfl
      have h2 : writeRecords (r :: rs) h
          = Res.bind (r.write h) (fun x => writeRecords rs x) := rfl
      rw [h1, h2]
      cases r.write h with
      | ok a => exact ih a
      | err e => rfl
      | panicked => rfl
      | fuelOut => rfl
  · intro p hlt
    simp [DnsPacket.setCounts, Nat.mod_eq_of_lt hlt]

/-- Witness for C10's theorem: the count hypothesis holds at the concrete
one-answer message `pUnknown`. -/
theorem unknown_record_zero_bytes_but_counted_witness :
    (DnsPacket.setCounts pUnknown).header.answers = pUnknown.answers.length :=
  unknown_record_zero_bytes_but_counted.2.2.1 pUnknown (by decide)
